import Mathlib

/-!
Verification of the flux passive 802.11 sniffer (Python sources under
`src/`) against its natural-language specification.

Shallow embedding conventions:
* `src/src/models.py` dataclasses `Device` and `AccessPoint` become Lean
  structures.  The `datetime`-valued fields `first_seen` / `last_seen` are
  omitted: they are produced by `datetime.now()` and no claim under study
  refers to them.  A Python `set[str]` is modelled as a duplicate-free
  `List String` (insertion order retained, membership-guarded insert),
  matching CPython `set.add` observables up to ordering.
* `src/src/packet_handler.py` is modelled twice:
  - a value-semantics model (`PacketHandler`, `processFrame`) adequate for
    claims about store contents, where Python dicts become association
    lists (CPython dicts preserve insertion order, which the association
    list mirrors);
  - a reference-semantics model (`RefState`, `processFrameRef`) that makes
    Python object identity explicit via an integer-addressed heap, used
    for claims about aliasing between the store and callback arguments.
  Both models consume decoder output (the fields `_handle_beacon` /
  `_handle_probe_request` read after `_extract_beacon_info`,
  `_extract_ssid`, `_get_rssi`, `_get_encryption`): scapy addresses are
  `Option String` (`None` possible), SSIDs `Option String`, RSSI `Int`,
  channel `Nat`, encryption `Option String`.
* `src/src/publisher.py` `Publisher.on_device` and `src/src/queue.py`
  `MessageQueue.publish` are modelled with an explicit connection flag and
  message list; the HTTP result of `VendorLookup.lookup` enters as a
  parameter.
* `src/src/vendor_lookup.py` `VendorLookup.lookup` is modelled as a pure
  function of the HTTP outcome together with an explicit memoisation
  table for the `functools.lru_cache` wrapper (capacity 1024; eviction is
  not modelled, which is exact for fewer than 1024 distinct keys).
-/

/-- Association-list lookup, mirroring Python `dict.__getitem__` /
`in` tests on the handler's dicts. -/
def lookupA {κ α : Type} [DecidableEq κ] : List (κ × α) → κ → Option α
  | [], _ => none
  | (k, v) :: rest, k2 => if k = k2 then some v else lookupA rest k2

/-- Association-list store, mirroring Python `dict.__setitem__`:
replaces in place if the key is present, appends otherwise (CPython
dicts keep insertion order). -/
def setA {κ α : Type} [DecidableEq κ] : List (κ × α) → κ → α → List (κ × α)
  | [], k, v => [(k, v)]
  | (k2, v2) :: rest, k, v =>
      if k2 = k then (k, v) :: rest else (k2, v2) :: setA rest k v

theorem lookupA_setA_self {κ α : Type} [DecidableEq κ]
    (l : List (κ × α)) (k : κ) (v : α) : lookupA (setA l k v) k = some v := by
  induction l with
  | nil => simp [setA, lookupA]
  | cons hd tl ih =>
      obtain ⟨k2, v2⟩ := hd
      by_cases h : k2 = k
      · simp [setA, h, lookupA]
      · simp [setA, h, lookupA, ih]

theorem lookupA_setA_ne {κ α : Type} [DecidableEq κ]
    (l : List (κ × α)) (k k2 : κ) (v : α) (h : k ≠ k2) :
    lookupA (setA l k v) k2 = lookupA l k2 := by
  induction l with
  | nil => simp [setA, lookupA, h]
  | cons hd tl ih =>
      obtain ⟨k3, v3⟩ := hd
      by_cases h3 : k3 = k
      · subst h3
        simp [setA, lookupA, h]
      · simp [setA, h3, lookupA, ih]

/-- `Device` from `src/src/models.py` (timestamps omitted, see module
comment). -/
structure Device where
  mac_address : String
  rssi_values : List Int := []
  probe_ssids : List String := []
  packet_count : Nat := 0
  vendor : Option String := none
  deriving DecidableEq, Repr

/-- `Device.update_rssi`: append the sample, bump `packet_count`
(`last_seen` omitted). -/
def Device.update_rssi (d : Device) (rssi : Int) : Device :=
  { d with rssi_values := d.rssi_values ++ [rssi],
           packet_count := d.packet_count + 1 }

/-- `Device.add_probe_ssid`: `if ssid:` guard, then `set.add`. -/
def Device.add_probe_ssid (d : Device) (ssid : String) : Device :=
  if ssid ≠ "" then
    { d with probe_ssids :=
        if ssid ∈ d.probe_ssids then d.probe_ssids else d.probe_ssids ++ [ssid] }
  else d

/-- `AccessPoint` from `src/src/models.py` (timestamps omitted).  The
`average_rssi` properties of both dataclasses are not modelled: their
non-empty branch is Python float true division, and IEEE-754 binary64
arithmetic is outside this embedding. -/
structure AccessPoint where
  bssid : String
  ssid : String
  channel : Nat
  rssi_values : List Int := []
  beacon_count : Nat := 0
  encryption : Option String := none
  deriving DecidableEq, Repr

/-- `AccessPoint.update`: append the sample, bump `beacon_count`. -/
def AccessPoint.update (a : AccessPoint) (rssi : Int) : AccessPoint :=
  { a with rssi_values := a.rssi_values ++ [rssi],
           beacon_count := a.beacon_count + 1 }

/-- The all-ones broadcast MAC rejected in `_handle_beacon` /
`_handle_probe_request`. -/
def bcastMac : String := "ff:ff:ff:ff:ff:ff"

/-- Decoder output consumed by `PacketHandler.process_packet`'s two
branches.  A `beacon` carries `addr3`, the SSID and channel from
`_extract_beacon_info`, the RSSI from `_get_rssi` and the classification
from `_get_encryption`; a `probe` carries `addr2`, the SSID from
`_extract_ssid` and the RSSI. -/
inductive Frame where
  | beacon (bssid : Option String) (ssid : Option String) (channel : Nat)
      (rssi : Int) (enc : Option String)
  | probe (mac : Option String) (ssid : Option String) (rssi : Int)
  deriving DecidableEq, Repr

/-- The two dicts owned by `PacketHandler.__init__`. -/
structure PacketHandler where
  devices : List (String × Device) := []
  access_points : List (String × AccessPoint) := []
  deriving DecidableEq, Repr

def emptyHandler : PacketHandler := {}

/-- `PacketHandler._handle_beacon` (callback invocation is modelled in the
reference-semantics model below). -/
def handleBeacon (st : PacketHandler) (bssid : Option String)
    (ssid : Option String) (channel : Nat) (rssi : Int)
    (enc : Option String) : PacketHandler :=
  match bssid with
  | none => st
  | some b =>
      if b = "" ∨ b = bcastMac then st
      else
        match lookupA st.access_points b with
        | some ap =>
            { st with access_points := setA st.access_points b (ap.update rssi) }
        | none =>
            let ap0 : AccessPoint :=
              { bssid := b,
                ssid := match ssid with
                        | some s => if s ≠ "" then s else ""
                        | none => "",
                channel := channel,
                rssi_values := [rssi],
                beacon_count := 0,
                encryption := enc }
            { st with access_points := setA st.access_points b ap0 }

/-- `PacketHandler._handle_probe_request`. -/
def handleProbe (st : PacketHandler) (mac : Option String)
    (ssid : Option String) (rssi : Int) : PacketHandler :=
  match mac with
  | none => st
  | some m =>
      if m = "" ∨ m = bcastMac then st
      else
        match lookupA st.devices m with
        | some d =>
            let d1 := d.update_rssi rssi
            let d2 := match ssid with
                      | some s => if s ≠ "" then d1.add_probe_ssid s else d1
                      | none => d1
            { st with devices := setA st.devices m d2 }
        | none =>
            let d0 : Device := { mac_address := m, rssi_values := [rssi] }
            let d1 := match ssid with
                      | some s => if s ≠ "" then d0.add_probe_ssid s else d0
                      | none => d0
            { st with devices := setA st.devices m d1 }

/-- `PacketHandler.process_packet` after layer dispatch. -/
def processFrame (st : PacketHandler) : Frame → PacketHandler
  | .beacon b s ch r e => handleBeacon st b s ch r e
  | .probe m s r => handleProbe st m s r

/-- A run of the handler over a trace of decoded frames. -/
def runPH (st : PacketHandler) (t : List Frame) : PacketHandler :=
  t.foldl processFrame st

example :
    (runPH emptyHandler
      [.probe (some "aa:bb:cc:11:22:33") (some "cafe") (-62)]).devices =
      [("aa:bb:cc:11:22:33",
        { mac_address := "aa:bb:cc:11:22:33", rssi_values := [-62],
          probe_ssids := ["cafe"], packet_count := 0, vendor := none })] := by
  decide

/-- The accepted probe observations: `_handle_probe_request` proceeds only
when `addr2` is present, non-empty and not the broadcast address. -/
def probeAccept : Frame → Option (String × Int)
  | .probe (some m) _ r => if m = "" ∨ m = bcastMac then none else some (m, r)
  | _ => none

/-- The accepted beacon observations, by the symmetric test on `addr3`. -/
def beaconAccept : Frame → Option (String × Int)
  | .beacon (some b) _ _ r _ => if b = "" ∨ b = bcastMac then none else some (b, r)
  | _ => none

/-- RSSIs of the accepted probe observations for one MAC, in arrival
order. -/
def probeRssis (t : List Frame) (mac : String) : List Int :=
  t.filterMap fun f =>
    match probeAccept f with
    | some (m, r) => if m = mac then some r else none
    | none => none

/-- RSSIs of the accepted beacon observations for one BSSID, in arrival
order. -/
def beaconRssis (t : List Frame) (bssid : String) : List Int :=
  t.filterMap fun f =>
    match beaconAccept f with
    | some (b, r) => if b = bssid then some r else none
    | none => none

def optDevRssis : Option Device → List Int
  | none => []
  | some d => d.rssi_values

def optApRssis : Option AccessPoint → List Int
  | none => []
  | some a => a.rssi_values

theorem add_probe_ssid_rssi (d : Device) (s : String) :
    (d.add_probe_ssid s).rssi_values = d.rssi_values := by
  unfold Device.add_probe_ssid
  split <;> rfl

theorem handleBeacon_devices (st : PacketHandler) (b s : Option String)
    (ch : Nat) (r : Int) (e : Option String) :
    (handleBeacon st b s ch r e).devices = st.devices := by
  unfold handleBeacon
  cases b with
  | none => rfl
  | some bb =>
      dsimp only
      split
      · rfl
      · split <;> rfl

theorem handleProbe_aps (st : PacketHandler) (m s : Option String) (r : Int) :
    (handleProbe st m s r).access_points = st.access_points := by
  unfold handleProbe
  cases m with
  | none => rfl
  | some mm =>
      dsimp only
      split
      · rfl
      · split <;> rfl

theorem processFrame_dev_rssis (st : PacketHandler) (f : Frame) (mac : String) :
    optDevRssis (lookupA (processFrame st f).devices mac) =
      optDevRssis (lookupA st.devices mac) ++
        (match probeAccept f with
         | some (m, r) => if m = mac then [r] else []
         | none => []) := by
  cases f with
  | beacon b s ch r e =>
      simp [processFrame, handleBeacon_devices, probeAccept]
  | probe m s r =>
      cases m with
      | none => simp [processFrame, handleProbe, probeAccept]
      | some mm =>
          by_cases hrej : mm = "" ∨ mm = bcastMac
          · simp [processFrame, handleProbe, probeAccept, hrej]
          · by_cases hk : mm = mac
            · subst hk
              cases hfind : lookupA st.devices mm with
              | some d =>
                  simp [processFrame, handleProbe, probeAccept, hrej, hfind,
                        lookupA_setA_self, optDevRssis]
                  cases s with
                  | none => simp [Device.update_rssi]
                  | some ss =>
                      by_cases hss : ss = ""
                      · simp [hss, Device.update_rssi]
                      · simp [hss, add_probe_ssid_rssi, Device.update_rssi]
              | none =>
                  simp [processFrame, handleProbe, probeAccept, hrej, hfind,
                        lookupA_setA_self, optDevRssis]
                  cases s with
                  | none => simp
                  | some ss =>
                      by_cases hss : ss = ""
                      · simp [hss]
                      · simp [hss, add_probe_ssid_rssi]
            · cases hfind : lookupA st.devices mm with
              | some d =>
                  simp [processFrame, handleProbe, probeAccept, hrej, hfind, hk,
                        lookupA_setA_ne _ _ _ _ (fun h => hk h)]
              | none =>
                  simp [processFrame, handleProbe, probeAccept, hrej, hfind, hk,
                        lookupA_setA_ne _ _ _ _ (fun h => hk h)]

theorem processFrame_ap_rssis (st : PacketHandler) (f : Frame) (bssid : String) :
    optApRssis (lookupA (processFrame st f).access_points bssid) =
      optApRssis (lookupA st.access_points bssid) ++
        (match beaconAccept f with
         | some (b, r) => if b = bssid then [r] else []
         | none => []) := by
  cases f with
  | probe m s r =>
      simp [processFrame, handleProbe_aps, beaconAccept]
  | beacon b s ch r e =>
      cases b with
      | none => simp [processFrame, handleBeacon, beaconAccept]
      | some bb =>
          by_cases hrej : bb = "" ∨ bb = bcastMac
          · simp [processFrame, handleBeacon, beaconAccept, hrej]
          · by_cases hk : bb = bssid
            · subst hk
              cases hfind : lookupA st.access_points bb with
              | some ap =>
                  simp [processFrame, handleBeacon, beaconAccept, hrej, hfind,
                        lookupA_setA_self, optApRssis, AccessPoint.update]
              | none =>
                  simp [processFrame, handleBeacon, beaconAccept, hrej, hfind,
                        lookupA_setA_self, optApRssis]
            · cases hfind : lookupA st.access_points bb with
              | some ap =>
                  simp [processFrame, handleBeacon, beaconAccept, hrej, hfind, hk,
                        lookupA_setA_ne _ _ _ _ (fun h => hk h)]
              | none =>
                  simp [processFrame, handleBeacon, beaconAccept, hrej, hfind, hk,
                        lookupA_setA_ne _ _ _ _ (fun h => hk h)]

theorem runPH_dev_rssis (t : List Frame) (st : PacketHandler) (mac : String) :
    optDevRssis (lookupA (runPH st t).devices mac) =
      optDevRssis (lookupA st.devices mac) ++ probeRssis t mac := by
  induction t generalizing st with
  | nil => simp [runPH, probeRssis]
  | cons f t ih =>
      have hstep := processFrame_dev_rssis st f mac
      have : runPH st (f :: t) = runPH (processFrame st f) t := rfl
      rw [this, ih, hstep, List.append_assoc]
      congr 1
      simp only [probeRssis, List.filterMap_cons]
      cases hpa : probeAccept f with
      | none => simp
      | some p =>
          obtain ⟨m, r⟩ := p
          by_cases hk : m = mac <;> simp [hk]

theorem runPH_ap_rssis (t : List Frame) (st : PacketHandler) (bssid : String) :
    optApRssis (lookupA (runPH st t).access_points bssid) =
      optApRssis (lookupA st.access_points bssid) ++ beaconRssis t bssid := by
  induction t generalizing st with
  | nil => simp [runPH, beaconRssis]
  | cons f t ih =>
      have hstep := processFrame_ap_rssis st f bssid
      have : runPH st (f :: t) = runPH (processFrame st f) t := rfl
      rw [this, ih, hstep, List.append_assoc]
      congr 1
      simp only [beaconRssis, List.filterMap_cons]
      cases hpa : beaconAccept f with
      | none => simp
      | some p =>
          obtain ⟨b, r⟩ := p
          by_cases hk : b = bssid <;> simp [hk]

def c1Mac : String := "aa:bb:cc:11:22:33"

/-- Eleven probe requests from one station. -/
def c1Trace : List Frame :=
  [.probe (some c1Mac) none (-60), .probe (some c1Mac) none (-61),
   .probe (some c1Mac) none (-62), .probe (some c1Mac) none (-63),
   .probe (some c1Mac) none (-64), .probe (some c1Mac) none (-65),
   .probe (some c1Mac) none (-66), .probe (some c1Mac) none (-67),
   .probe (some c1Mac) none (-68), .probe (some c1Mac) none (-69),
   .probe (some c1Mac) none (-70)]

/-- Claim C1 counterexample: after eleven ingests for one MAC the stored
`rssi_values` has length 11 and retains every sample — the claimed bound
of 10 with head discard does not hold (`Device.update_rssi` and
`AccessPoint.update` only append). -/
theorem c1_counterexample :
    (lookupA (runPH emptyHandler c1Trace).devices c1Mac).map
        (fun d => d.rssi_values.length) = some 11 ∧
    (lookupA (runPH emptyHandler c1Trace).devices c1Mac).map
        (fun d => d.rssi_values) =
      some [-60, -61, -62, -63, -64, -65, -66, -67, -68, -69, -70] := by
  constructor <;> rfl

/-- Claim C1 (amended): for every Device and AccessPoint record, after any
sequence of ingests from an empty store, `rssi_values` equals the full
list of RSSIs of the accepted ingests for that key in arrival order —
so elements are ordered oldest to newest and the newest element equals
the RSSI of the most recent ingest — but the length is the number of
ingests for that key: it is not bounded by 10 and no element is ever
discarded. -/
theorem c1_rssi_window_amended (t : List Frame) :
    (∀ mac d, lookupA (runPH emptyHandler t).devices mac = some d →
        d.rssi_values = probeRssis t mac) ∧
    (∀ bssid a, lookupA (runPH emptyHandler t).access_points bssid = some a →
        a.rssi_values = beaconRssis t bssid) := by
  constructor
  · intro mac d h
    have hrun := runPH_dev_rssis t emptyHandler mac
    rw [h] at hrun
    simpa [emptyHandler, lookupA, optDevRssis] using hrun
  · intro bssid a h
    have hrun := runPH_ap_rssis t emptyHandler bssid
    rw [h] at hrun
    simpa [emptyHandler, lookupA, optApRssis] using hrun

def c1WBssid : String := "de:ad:be:ef:00:01"

def c1WTrace : List Frame :=
  [.probe (some c1Mac) (some "cafe") (-62), .probe (some c1Mac) none (-50),
   .beacon (some c1WBssid) (some "home") 6 (-40) (some "WPA2")]

def c1WDev : Device :=
  { mac_address := c1Mac, rssi_values := [-62, -50],
    probe_ssids := ["cafe"], packet_count := 1, vendor := none }

def c1WAp : AccessPoint :=
  { bssid := c1WBssid, ssid := "home", channel := 6,
    rssi_values := [-40], beacon_count := 0, encryption := some "WPA2" }

theorem c1_rssi_window_amended_witness :
    c1WDev.rssi_values = probeRssis c1WTrace c1Mac ∧
    c1WAp.rssi_values = beaconRssis c1WTrace c1WBssid :=
  ⟨(c1_rssi_window_amended c1WTrace).1 c1Mac c1WDev (by decide),
   (c1_rssi_window_amended c1WTrace).2 c1WBssid c1WAp (by decide)⟩

def c2Bssid : String := "de:ad:be:ef:00:01"

/-- Scenario from the spec: a hidden-SSID beacon, then a beacon carrying
SSID `"home"`, both from the same BSSID (an empty SSID IE decodes to
`""`). -/
def c2Trace : List Frame :=
  [.beacon (some c2Bssid) (some "") 6 (-40) (some "WPA2"),
   .beacon (some c2Bssid) (some "home") 6 (-42) (some "WPA2")]

/-- Claim C2 counterexample: after the hidden-SSID beacon followed by the
`"home"` beacon, the single stored AP record still has `ssid = ""`, not
`"home"` — `_handle_beacon` only calls `AccessPoint.update` on existing
records and never touches `ssid`, `channel` or `encryption`. -/
theorem c2_counterexample :
    (runPH emptyHandler c2Trace).access_points.length = 1 ∧
    (lookupA (runPH emptyHandler c2Trace).access_points c2Bssid).map
        (fun a => a.ssid) = some "" ∧ ("" : String) ≠ "home" := by
  refine ⟨rfl, rfl, by decide⟩

/-- Claim C2 (amended): when a beacon is ingested for a BSSID that already
has an AccessPoint record, the stored `ssid`, `channel` and `encryption`
are left exactly as they were — there is no upgrade of an empty stored
SSID and no overwrite from the latest observation; only the RSSI window
and `beacon_count` change.  In particular, after a hidden-SSID beacon
followed by a beacon carrying SSID "home" from the same BSSID, the single
AP record keeps `ssid = ""`. -/
theorem c2_no_field_refresh_amended (st : PacketHandler) (b : String)
    (ap : AccessPoint) (s : Option String) (ch : Nat) (r : Int)
    (e : Option String) (h : lookupA st.access_points b = some ap) :
    (lookupA (processFrame st (.beacon (some b) s ch r e)).access_points b).map
        (fun a2 => (a2.ssid, a2.channel, a2.encryption)) =
      some (ap.ssid, ap.channel, ap.encryption) := by
  by_cases hrej : b = "" ∨ b = bcastMac
  · simp [processFrame, handleBeacon, hrej, h]
  · simp [processFrame, handleBeacon, hrej, h, lookupA_setA_self,
          AccessPoint.update]

/-- The store holding just the hidden-SSID AP record. -/
def c2St : PacketHandler :=
  runPH emptyHandler [.beacon (some c2Bssid) (some "") 6 (-40) (some "WPA2")]

def c2Ap : AccessPoint :=
  { bssid := c2Bssid, ssid := "", channel := 6, rssi_values := [-40],
    beacon_count := 0, encryption := some "WPA2" }

theorem c2_no_field_refresh_amended_witness :
    (lookupA (processFrame c2St
        (.beacon (some c2Bssid) (some "home") 6 (-42) (some "WPA2"))).access_points
        c2Bssid).map (fun a2 => (a2.ssid, a2.channel, a2.encryption)) =
      some (c2Ap.ssid, c2Ap.channel, c2Ap.encryption) :=
  c2_no_field_refresh_amended c2St c2Bssid c2Ap (some "home") 6 (-42)
    (some "WPA2") (by rfl)

def c3Bssid : String := "de:ad:be:ef:00:01"

/-- The same beacon ingested twice. -/
def c3Trace : List Frame :=
  [.beacon (some c3Bssid) (some "home") 6 (-40) (some "WPA2"),
   .beacon (some c3Bssid) (some "home") 6 (-40) (some "WPA2")]

/-- Claim C3, evaluated on the code at the failing input: ingesting the
same beacon twice into an empty store leaves a single AP record, but its
`beacon_count` is 1, not 2 — the creation branch of `_handle_beacon`
builds the record with the default `beacon_count = 0` and never counts
the beacon that created it; only the second ingest runs
`AccessPoint.update`. -/
theorem c3_beacon_count_eval :
    (runPH emptyHandler c3Trace).access_points.length = 1 ∧
    (lookupA (runPH emptyHandler c3Trace).access_points c3Bssid).map
        (fun a => a.beacon_count) = some 1 := by
  constructor <;> rfl

def c4Mac : String := "aa:bb:cc:11:22:33"

/-- A single probe request: fresh unicast source MAC, SSID "cafe",
RSSI −62. -/
def c4Trace : List Frame := [.probe (some c4Mac) (some "cafe") (-62)]

/-- Claim C4, evaluated on the code at the failing input: the single
probe-request ingest creates exactly one Device with
`probe_ssids = {"cafe"}` and `rssi_values = [-62]` as claimed, but
`packet_count` is 0, not 1 — the creation branch of
`_handle_probe_request` builds `Device(mac_address=mac,
rssi_values=[rssi])` without calling `Device.update_rssi`, so the packet
that created the record is never counted. -/
theorem c4_probe_creation_eval :
    (runPH emptyHandler c4Trace).devices.length = 1 ∧
    (lookupA (runPH emptyHandler c4Trace).devices c4Mac).map
        (fun d => (d.packet_count, d.probe_ssids, d.rssi_values)) =
      some (0, ["cafe"], [-62]) := by
  constructor <;> rfl

/-- Value of one hexadecimal digit character. -/
def hexDigitVal (c : Char) : Option Nat :=
  if c.isDigit then some (c.toNat - 48)
  else if 97 ≤ c.toNat ∧ c.toNat ≤ 102 then some (c.toNat - 87)
  else if 65 ≤ c.toNat ∧ c.toNat ≤ 70 then some (c.toNat - 55)
  else none

/-- First octet of a colon-hex MAC string. -/
def firstOctet (s : String) : Option Nat :=
  match s.toList with
  | a :: b :: _ =>
      match hexDigitVal a, hexDigitVal b with
      | some x, some y => some (16 * x + y)
      | _, _ => none
  | _ => none

/-- The claim's multicast test: bit 0 of the first octet set. -/
def isMulticastMac (s : String) : Bool :=
  match firstOctet s with
  | some n => n % 2 = 1
  | none => false

def c5McastBssid : String := "01:00:5e:00:00:01"

def c5McastMac : String := "01:80:c2:00:00:0e"

/-- A beacon and a probe request whose identity addresses are multicast
(bit 0 of the first octet set) but not the all-ones broadcast. -/
def c5Trace : List Frame :=
  [.beacon (some c5McastBssid) (some "mdns") 6 (-40) (some "Open"),
   .probe (some c5McastMac) none (-50)]

/-- Claim C5 counterexample: multicast identity addresses are not
rejected — a beacon from multicast BSSID `01:00:5e:00:00:01` and a probe
request from multicast source `01:80:c2:00:00:0e` each create a record,
so the store is not left unchanged.  The code only tests `not addr` and
`addr == "ff:ff:ff:ff:ff:ff"`. -/
theorem c5_counterexample :
    isMulticastMac c5McastBssid = true ∧ isMulticastMac c5McastMac = true ∧
    (runPH emptyHandler c5Trace).access_points.length = 1 ∧
    (runPH emptyHandler c5Trace).devices.length = 1 := by
  refine ⟨by decide, by decide, rfl, rfl⟩

/-- Claim C5 (amended): a frame whose identity address (Address3 for
beacons, Address2 for probe requests) is missing, empty, or the all-ones
broadcast address `ff:ff:ff:ff:ff:ff` is dropped before record creation
and leaves the store completely unchanged; multicast addresses other than
the broadcast are not rejected. -/
theorem c5_broadcast_drop_amended (st : PacketHandler) (b m s s2 : Option String)
    (ch : Nat) (r r2 : Int) (e : Option String)
    (hb : b = none ∨ b = some "" ∨ b = some bcastMac)
    (hm : m = none ∨ m = some "" ∨ m = some bcastMac) :
    processFrame st (.beacon b s ch r e) = st ∧
    processFrame st (.probe m s2 r2) = st := by
  constructor
  · rcases hb with h | h | h <;> subst h <;> simp [processFrame, handleBeacon]
  · rcases hm with h | h | h <;> subst h <;> simp [processFrame, handleProbe]

theorem c5_broadcast_drop_amended_witness :
    processFrame c2St (.beacon (some bcastMac) none 0 0 none) = c2St ∧
    processFrame c2St (.probe (some "") none 0) = c2St :=
  c5_broadcast_drop_amended c2St (some bcastMac) (some "") none none 0 0 0 none
    (Or.inr (Or.inr rfl)) (Or.inr (Or.inl rfl))

/-- Reference-semantics model of `PacketHandler`: Python objects live on
an integer-addressed heap and the dicts map keys to references.  Each
callback invocation (`self.on_device_callback(self.devices[mac], is_new)`
and `self.on_ap_callback(self.access_points[bssid], is_new)`) is recorded
as the reference passed together with the `is_new` flag. -/
structure RefState where
  deviceRefs : List (String × Nat) := []
  apRefs : List (String × Nat) := []
  deviceHeap : List (Nat × Device) := []
  apHeap : List (Nat × AccessPoint) := []
  nextRef : Nat := 0
  deviceEvents : List (Nat × Bool) := []
  apEvents : List (Nat × Bool) := []
  deriving DecidableEq, Repr

def emptyRefState : RefState := {}

/-- `_handle_beacon` / `_handle_probe_request` with explicit references.
A dangling reference (key mapped to an address not on the heap) cannot
arise from `emptyRefState`; the model leaves the state unchanged in that
vacuous branch. -/
def processFrameRef (st : RefState) : Frame → RefState
  | .beacon b _s _ch r _e =>
      match b with
      | none => st
      | some bb =>
          if bb = "" ∨ bb = bcastMac then st
          else
            match lookupA st.apRefs bb with
            | some ref =>
                match lookupA st.apHeap ref with
                | some ap =>
                    { st with apHeap := setA st.apHeap ref (ap.update r),
                              apEvents := st.apEvents ++ [(ref, false)] }
                | none => st
            | none =>
                let ref := st.nextRef
                let ap0 : AccessPoint :=
                  { bssid := bb,
                    ssid := match _s with
                            | some s => if s ≠ "" then s else ""
                            | none => "",
                    channel := _ch,
                    rssi_values := [r],
                    beacon_count := 0,
                    encryption := _e }
                { st with apRefs := setA st.apRefs bb ref,
                          apHeap := st.apHeap ++ [(ref, ap0)],
                          nextRef := ref + 1,
                          apEvents := st.apEvents ++ [(ref, true)] }
  | .probe m s r =>
      match m with
      | none => st
      | some mm =>
          if mm = "" ∨ mm = bcastMac then st
          else
            match lookupA st.deviceRefs mm with
            | some ref =>
                match lookupA st.deviceHeap ref with
                | some d =>
                    let d1 := d.update_rssi r
                    let d2 := match s with
                              | some ss => if ss ≠ "" then d1.add_probe_ssid ss else d1
                              | none => d1
                    { st with deviceHeap := setA st.deviceHeap ref d2,
                              deviceEvents := st.deviceEvents ++ [(ref, false)] }
                | none => st
            | none =>
                let ref := st.nextRef
                let d0 : Device := { mac_address := mm, rssi_values := [r] }
                let d1 := match s with
                          | some ss => if ss ≠ "" then d0.add_probe_ssid ss else d0
                          | none => d0
                { st with deviceRefs := setA st.deviceRefs mm ref,
                          deviceHeap := st.deviceHeap ++ [(ref, d1)],
                          nextRef := ref + 1,
                          deviceEvents := st.deviceEvents ++ [(ref, true)] }

/-- Dereference the Device record the store holds for a MAC. -/
def lookupDeviceRef (st : RefState) (m : String) : Option Device :=
  (lookupA st.deviceRefs m).bind (lookupA st.deviceHeap)

/-- Python mutation `obj.vendor = v` performed through a reference a
callback received — exactly what `Publisher.on_device` does with
`device.vendor = vendor`. -/
def setVendorViaRef (st : RefState) (ref : Nat) (v : Option String) : RefState :=
  match lookupA st.deviceHeap ref with
  | some d => { st with deviceHeap := setA st.deviceHeap ref { d with vendor := v } }
  | none => st

def c6Mac : String := "aa:bb:cc:11:22:33"

/-- The state after ingesting one probe request from an empty handler. -/
def c6St : RefState :=
  processFrameRef emptyRefState (.probe (some c6Mac) (some "cafe") (-62))

/-- Claim C6 counterexample: the single ingest invoked the device callback
with reference 0 — the very reference the store maps `c6Mac` to, not a
copy — and performing the publisher's `device.vendor = vendor` assignment
through that callback reference changes the Device stored in the store's
map from `vendor = none` to `vendor = some "Apple"`. -/
theorem c6_counterexample :
    c6St.deviceEvents = [(0, true)] ∧
    lookupA c6St.deviceRefs c6Mac = some 0 ∧
    (lookupDeviceRef c6St c6Mac).map (fun d => d.vendor) = some none ∧
    (lookupDeviceRef (setVendorViaRef c6St 0 (some "Apple")) c6Mac).map
        (fun d => d.vendor) = some (some "Apple") := by
  refine ⟨rfl, rfl, rfl, rfl⟩

/-- Claim C6 (amended): every argument passed to the `on_device` and
`on_ap` callbacks is a live reference into the store, not a value copy:
the reference recorded by the callback invocation is exactly the
reference the store's map holds for that key afterwards, so mutating the
object received by a callback mutates the stored record and later store
mutations are visible through it. -/
theorem c6_live_reference_amended (st : RefState) (m bb : String)
    (s s2 : Option String) (ch : Nat) (r r2 : Int) (e : Option String)
    (hm : ¬(m = "" ∨ m = bcastMac)) (hb : ¬(bb = "" ∨ bb = bcastMac))
    (hwfd : ∀ ref, lookupA st.deviceRefs m = some ref →
        (lookupA st.deviceHeap ref).isSome)
    (hwfa : ∀ ref, lookupA st.apRefs bb = some ref →
        (lookupA st.apHeap ref).isSome) :
    (lookupA (processFrameRef st (.probe (some m) s r)).deviceRefs m).isSome ∧
    (processFrameRef st (.probe (some m) s r)).deviceEvents =
      st.deviceEvents ++
        [((lookupA (processFrameRef st (.probe (some m) s r)).deviceRefs m).getD 0,
          (lookupA st.deviceRefs m).isNone)] ∧
    (lookupA (processFrameRef st (.beacon (some bb) s2 ch r2 e)).apRefs bb).isSome ∧
    (processFrameRef st (.beacon (some bb) s2 ch r2 e)).apEvents =
      st.apEvents ++
        [((lookupA (processFrameRef st (.beacon (some bb) s2 ch r2 e)).apRefs bb).getD 0,
          (lookupA st.apRefs bb).isNone)] := by
  refine ⟨?_, ?_, ?_, ?_⟩
  · cases hfind : lookupA st.deviceRefs m with
    | some ref =>
        have hsome := hwfd ref hfind
        cases hheap : lookupA st.deviceHeap ref with
        | some d => simp [processFrameRef, hm, hfind, hheap]
        | none => simp [hheap] at hsome
    | none => simp [processFrameRef, hm, hfind, lookupA_setA_self]
  · cases hfind : lookupA st.deviceRefs m with
    | some ref =>
        have hsome := hwfd ref hfind
        cases hheap : lookupA st.deviceHeap ref with
        | some d => simp [processFrameRef, hm, hfind, hheap]
        | none => simp [hheap] at hsome
    | none => simp [processFrameRef, hm, hfind, lookupA_setA_self]
  · cases hfind : lookupA st.apRefs bb with
    | some ref =>
        have hsome := hwfa ref hfind
        cases hheap : lookupA st.apHeap ref with
        | some ap => simp [processFrameRef, hb, hfind, hheap]
        | none => simp [hheap] at hsome
    | none => simp [processFrameRef, hb, hfind, lookupA_setA_self]
  · cases hfind : lookupA st.apRefs bb with
    | some ref =>
        have hsome := hwfa ref hfind
        cases hheap : lookupA st.apHeap ref with
        | some ap => simp [processFrameRef, hb, hfind, hheap]
        | none => simp [hheap] at hsome
    | none => simp [processFrameRef, hb, hfind, lookupA_setA_self]

def c6Bssid : String := "de:ad:be:ef:00:02"

theorem c6_live_reference_amended_witness :
    (lookupA (processFrameRef c6St (.probe (some c6Mac) none (-55))).deviceRefs
        c6Mac).isSome ∧
    (processFrameRef c6St (.probe (some c6Mac) none (-55))).deviceEvents =
      c6St.deviceEvents ++
        [((lookupA (processFrameRef c6St (.probe (some c6Mac) none (-55))).deviceRefs
            c6Mac).getD 0, (lookupA c6St.deviceRefs c6Mac).isNone)] ∧
    (lookupA (processFrameRef c6St
        (.beacon (some c6Bssid) none 6 (-40) (some "WPA2"))).apRefs c6Bssid).isSome ∧
    (processFrameRef c6St (.beacon (some c6Bssid) none 6 (-40) (some "WPA2"))).apEvents =
      c6St.apEvents ++
        [((lookupA (processFrameRef c6St
            (.beacon (some c6Bssid) none 6 (-40) (some "WPA2"))).apRefs
            c6Bssid).getD 0, (lookupA c6St.apRefs c6Bssid).isNone)] :=
  c6_live_reference_amended c6St c6Mac c6Bssid none none 6 (-55) (-40)
    (some "WPA2") (by decide) (by decide)
    (by
      intro ref h
      rw [show lookupA c6St.deviceRefs c6Mac = some 0 from rfl] at h
      injection h with h2
      subst h2
      rfl)
    (by
      intro ref h
      rw [show lookupA c6St.apRefs c6Bssid = none from rfl] at h
      exact Option.noConfusion h)

/-- One event in the life of a single Device record: a probe-request
ingest for its MAC (`_handle_probe_request`'s update branch), or an
invocation of `Publisher.on_device` with the given `is_new` flag and
`VendorLookup.lookup` result. -/
inductive DevEvent where
  | ingest (rssi : Int) (ssid : Option String)
  | callback (is_new : Bool) (res : Option String)
  deriving DecidableEq, Repr

/-- The vendor-assignment prefix of `Publisher.on_device`:
`if is_new and not device.vendor: vendor = VendorLookup.lookup(...);
if vendor: device.vendor = vendor`.  Python truthiness: `not
device.vendor` holds for `None` and for `""`; `if vendor:` holds only
for a non-`None`, non-empty result. -/
def applyVendor (d : Device) (is_new : Bool) (res : Option String) : Device :=
  if is_new = true ∧ (d.vendor = none ∨ d.vendor = some "") then
    match res with
    | some v => if v ≠ "" then { d with vendor := some v } else d
    | none => d
  else d

/-- Apply one event to a Device record. -/
def devApply (d : Device) : DevEvent → Device
  | .ingest r s =>
      let d1 := d.update_rssi r
      match s with
      | some ss => if ss ≠ "" then d1.add_probe_ssid ss else d1
      | none => d1
  | .callback b res => applyVendor d b res

/-- A Device's history under a sequence of ingests and publisher
callbacks. -/
def devRun (d : Device) (l : List DevEvent) : Device :=
  l.foldl devApply d

theorem devApply_vendor_fixed (d : Device) (e : DevEvent) (v : String)
    (hv : v ≠ "") (h : d.vendor = some v) : (devApply d e).vendor = some v := by
  cases e with
  | ingest r s =>
      cases s with
      | none => simpa [devApply, Device.update_rssi] using h
      | some ss =>
          by_cases hss : ss = ""
          · simpa [devApply, hss, Device.update_rssi] using h
          · simp only [devApply, hss, ne_eq, not_false_iff, if_true]
            rw [show ((d.update_rssi r).add_probe_ssid ss).vendor =
                  d.vendor from by
                unfold Device.add_probe_ssid Device.update_rssi
                split <;> rfl]
            exact h
  | callback b res =>
      have hnb : ¬(b = true ∧ (d.vendor = none ∨ d.vendor = some "")) := by
        rintro ⟨-, hd | hd⟩
        · rw [h] at hd
          exact Option.noConfusion hd
        · rw [h] at hd
          injection hd with hd2
          exact hv hd2
      show (applyVendor d b res).vendor = some v
      unfold applyVendor
      rw [if_neg hnb]
      exact h

theorem devRun_vendor_fixed (d : Device) (l : List DevEvent) (v : String)
    (hv : v ≠ "") (h : d.vendor = some v) : (devRun d l).vendor = some v := by
  induction l generalizing d with
  | nil => simpa [devRun] using h
  | cons e l ih =>
      have : devRun d (e :: l) = devRun (devApply d e) l := rfl
      rw [this]
      exact ih _ (devApply_vendor_fixed d e v hv h)

theorem devApply_vendor_inv (d : Device) (e : DevEvent)
    (h : d.vendor = none ∨ ∃ w, w ≠ "" ∧ d.vendor = some w) :
    (devApply d e).vendor = none ∨
      ∃ w, w ≠ "" ∧ (devApply d e).vendor = some w := by
  rcases h with h | ⟨w, hw, h⟩
  · cases e with
    | ingest r s =>
        cases s with
        | none => simp [devApply, Device.update_rssi, h]
        | some ss =>
            by_cases hss : ss = ""
            · simp [devApply, hss, Device.update_rssi, h]
            · left
              simp only [devApply, hss, ne_eq, not_false_iff, if_true]
              rw [show ((d.update_rssi r).add_probe_ssid ss).vendor =
                    d.vendor from by
                  unfold Device.add_probe_ssid Device.update_rssi
                  split <;> rfl]
              exact h
    | callback b res =>
        cases res with
        | none => simp [applyVendor, devApply, h]
        | some v =>
            by_cases hb : b = true
            · by_cases hvv : v = ""
              · simp [devApply, applyVendor, h, hb, hvv]
              · right
                exact ⟨v, hvv, by simp [devApply, applyVendor, h, hb, hvv]⟩
            · simp [devApply, applyVendor, h, hb]
  · right
    exact ⟨w, hw, devApply_vendor_fixed d e w hw h⟩

theorem devRun_vendor_inv (d : Device) (l : List DevEvent)
    (h : d.vendor = none ∨ ∃ w, w ≠ "" ∧ d.vendor = some w) :
    (devRun d l).vendor = none ∨
      ∃ w, w ≠ "" ∧ (devRun d l).vendor = some w := by
  induction l generalizing d with
  | nil => simpa [devRun] using h
  | cons e l ih =>
      have : devRun d (e :: l) = devRun (devApply d e) l := rfl
      rw [this]
      exact ih _ (devApply_vendor_inv d e h)

/-- Claim C7: across every sequence of ingests and publisher callbacks
starting from a Device whose `vendor` is unset, any value the `vendor`
field ever takes is a non-empty string, and once it holds such a value
every further sequence of events leaves it at exactly that value — so
the field transitions at most once from `None` to a set, non-empty,
immutable string.  (`applyVendor` assigns only truthy lookup results and
only when the current value is falsy; ingests never touch `vendor`.) -/
theorem c7_vendor_set_once (d : Device) (l l2 : List DevEvent) (v : String)
    (h0 : d.vendor = none) (h : (devRun d l).vendor = some v) :
    v ≠ "" ∧ (devRun (devRun d l) l2).vendor = some v := by
  have hinv := devRun_vendor_inv d l (Or.inl h0)
  rcases hinv with hnone | ⟨w, hw, hsome⟩
  · rw [h] at hnone
    exact Option.noConfusion hnone
  · rw [h] at hsome
    injection hsome with hvw
    subst hvw
    exact ⟨hw, devRun_vendor_fixed _ l2 _ hw h⟩

def c7Dev : Device := { mac_address := "aa:bb:cc:11:22:33", rssi_values := [-62] }

def c7Events : List DevEvent := [.callback true (some "Apple")]

def c7Events2 : List DevEvent :=
  [.callback true (some "Sony"), .ingest (-50) (some "cafe")]

theorem c7_vendor_set_once_witness :
    ("Apple" : String) ≠ "" ∧
    (devRun (devRun c7Dev c7Events) c7Events2).vendor = some "Apple" :=
  c7_vendor_set_once c7Dev c7Events c7Events2 "Apple" (by rfl) (by rfl)

/-- The JSON envelope `Publisher.on_device` publishes for a discovery
event (`timestamp` omitted, as for the model timestamps generally). -/
structure BusMsg where
  event_type : String
  mac_address : String
  rssi : Option Int
  vendor : Option String
  deriving DecidableEq, Repr

/-- `src/src/queue.py` `MessageQueue`: the pika channel becomes a
`connected` flag and the durable queue a message list.  `publish` returns
`False` and enqueues nothing when not connected (`if not self.channel`)
or when `basic_publish` raises; both failure modes are represented by
`connected = false`. -/
structure MessageQueue where
  connected : Bool
  messages : List BusMsg
  deriving DecidableEq, Repr

def MessageQueue.publish (q : MessageQueue) (m : BusMsg) :
    Bool × MessageQueue :=
  if q.connected then (true, { q with messages := q.messages ++ [m] })
  else (false, q)

/-- The Publisher state touched by `on_device`: its queue and
`device_batch` (the Mongo handle and the flush thread are not involved in
the claims under study). -/
structure Publisher where
  queue : MessageQueue
  device_batch : List Device
  deriving DecidableEq, Repr

/-- `Publisher.on_device`: vendor assignment (shared `applyVendor`),
batch append, and — only for `is_new` — one `device_discovered` publish
with `rssi = device.rssi_values[-1] if device.rssi_values else None`.
`res` is the value `VendorLookup.lookup` would return. -/
def Publisher.on_device (p : Publisher) (d : Device) (is_new : Bool)
    (res : Option String) : Publisher :=
  let d1 := applyVendor d is_new res
  let p1 : Publisher := { p with device_batch := p.device_batch ++ [d1] }
  if is_new then
    { p1 with queue := (p1.queue.publish
        { event_type := "device_discovered",
          mac_address := d1.mac_address,
          rssi := d1.rssi_values.getLast?,
          vendor := d1.vendor }).2 }
  else p1

/-- Count of `device_discovered` messages for one MAC on the bus. -/
def countDD (msgs : List BusMsg) (m : String) : Nat :=
  (msgs.filter
    (fun x => x.event_type == "device_discovered" && x.mac_address == m)).length

theorem applyVendor_mac (d : Device) (b : Bool) (res : Option String) :
    (applyVendor d b res).mac_address = d.mac_address := by
  unfold applyVendor
  split
  · cases res with
    | none => rfl
    | some v => by_cases hv : v = "" <;> simp [hv]
  · rfl

theorem countDD_append (l1 l2 : List BusMsg) (m : String) :
    countDD (l1 ++ l2) m = countDD l1 m + countDD l2 m := by
  simp [countDD, List.filter_append]

def c8Queue : MessageQueue := { connected := false, messages := [] }

def c8Pub : Publisher := { queue := c8Queue, device_batch := [] }

def c8Dev : Device := { mac_address := "aa:bb:cc:11:22:33", rssi_values := [-62] }

/-- Claim C8 counterexample: an `on_device` invocation with
`is_new = true` while the queue is not connected enqueues no
`device_discovered` message at all — `MessageQueue.publish` returns
`False` without enqueuing when the channel is down — so it is not the
case that every `is_new = true` invocation enqueues exactly one such
message. -/
theorem c8_counterexample :
    countDD (c8Pub.on_device c8Dev true none).queue.messages
      "aa:bb:cc:11:22:33" = 0 := by
  rfl

/-- Claim C8 (amended): an invocation of `on_device` adds exactly one
`device_discovered` message for the device's MAC to the bus when
`is_new = true` and the queue connection is up, and adds no
`device_discovered` message otherwise (`is_new = false`, or the publish
fails because the connection is down, in which case the message is
dropped). -/
theorem c8_discovery_event_amended (p : Publisher) (d : Device)
    (is_new : Bool) (res : Option String) (m : String) :
    countDD (p.on_device d is_new res).queue.messages m =
      countDD p.queue.messages m +
        (if is_new = true ∧ p.queue.connected = true ∧ m = d.mac_address
         then 1 else 0) := by
  cases is_new with
  | false => simp [Publisher.on_device]
  | true =>
      cases hc : p.queue.connected with
      | false =>
          simp [Publisher.on_device, MessageQueue.publish, hc]
      | true =>
          by_cases hm : m = d.mac_address
          · subst hm
            simp [Publisher.on_device, MessageQueue.publish, hc, countDD_append,
                  countDD, applyVendor_mac]
          · have h2 : ¬(d.mac_address = m) := fun hmm => hm hmm.symm
            simp [Publisher.on_device, MessageQueue.publish, hc, countDD_append,
                  countDD, applyVendor_mac, hm, h2]

/-- Outcome of the HTTP GET in `VendorLookup.lookup`: a response with a
status code and body text, or a raised `requests.RequestException`. -/
inductive HttpOutcome where
  | response (status : Nat) (body : String)
  | netError
  deriving DecidableEq, Repr

/-- The response handling of `VendorLookup.lookup`: 200 →
`response.text.strip()`, 404 → `"Unknown"`, any other status or a raised
exception → `None`. -/
def vendorLookupPure : HttpOutcome → Option String
  | .response s b =>
      if s = 200 then some b.trim
      else if s = 404 then some "Unknown"
      else none
  | .netError => none

/-- The `@lru_cache(maxsize=1024)` wrapper on `VendorLookup.lookup`: a
memoisation table keyed by the full MAC string, consulted before any
network activity and also storing `None` results.  (Eviction at 1024
entries is not modelled; this is exact for fewer than 1024 distinct
keys.) -/
def vendorLookupCached (net : String → HttpOutcome)
    (cache : List (String × Option String)) (mac : String) :
    Option String × List (String × Option String) :=
  match lookupA cache mac with
  | some v => (v, cache)
  | none =>
      let v := vendorLookupPure (net mac)
      (v, cache ++ [(mac, v)])

/-- Network behaviours used in the C9 instances. -/
def c9NetDown : String → HttpOutcome := fun _ => .netError

def c9NetUp : String → HttpOutcome := fun _ => .response 200 "Apple, Inc."

def c9Mac : String := "aa:bb:cc:11:22:33"

/-- Claim C9 counterexample: after a lookup that failed with a network
error (result `None`), a later lookup for the same MAC cannot perform
the lookup again and succeed — the `None` was stored by `lru_cache`, so
even when the network would now answer 200 with a vendor body, the
cached call still returns `None` without issuing the request. -/
theorem c9_counterexample :
    (vendorLookupCached c9NetDown [] c9Mac).1 = none ∧
    (vendorLookupPure (c9NetUp c9Mac)).isSome = true ∧
    (vendorLookupCached c9NetUp
        (vendorLookupCached c9NetDown [] c9Mac).2 c9Mac).1 = none := by
  refine ⟨rfl, by simp [vendorLookupPure, c9NetUp], rfl⟩

/-- Claim C9 (amended): `VendorLookup.lookup` returns the stripped
response body on HTTP 200, `"Unknown"` on HTTP 404, and `None` on a
network error; a `None` result leaves the device's `vendor` field unset,
but the `None` is memoised by `lru_cache`, so a later lookup for the
same MAC returns the cached `None` under every network behaviour and
never retries. -/
theorem c9_lookup_semantics_amended (net1 : String → HttpOutcome)
    (mac b : String) (h : net1 mac = .netError) :
    vendorLookupPure (.response 200 b) = some b.trim ∧
    vendorLookupPure (.response 404 b) = some "Unknown" ∧
    vendorLookupPure .netError = none ∧
    (vendorLookupCached net1 [] mac).1 = none ∧
    ∀ net2 : String → HttpOutcome,
      (vendorLookupCached net2 (vendorLookupCached net1 [] mac).2 mac).1 = none := by
  refine ⟨by simp [vendorLookupPure], by simp [vendorLookupPure], rfl, ?_, ?_⟩
  · simp [vendorLookupCached, lookupA, h, vendorLookupPure]
  · intro net2
    simp [vendorLookupCached, lookupA, h, vendorLookupPure]

theorem c9_lookup_semantics_amended_witness :
    vendorLookupPure (.response 200 " Sony ") = some " Sony ".trim ∧
    vendorLookupPure (.response 404 " Sony ") = some "Unknown" ∧
    (vendorLookupCached c9NetDown [] c9Mac).1 = none ∧
    (vendorLookupCached c9NetUp
        (vendorLookupCached c9NetDown [] c9Mac).2 c9Mac).1 = none :=
  ⟨(c9_lookup_semantics_amended c9NetDown c9Mac " Sony " rfl).1,
   (c9_lookup_semantics_amended c9NetDown c9Mac " Sony " rfl).2.1,
   (c9_lookup_semantics_amended c9NetDown c9Mac " Sony " rfl).2.2.2.1,
   (c9_lookup_semantics_amended c9NetDown c9Mac " Sony " rfl).2.2.2.2 c9NetUp⟩
